import Mathlib

/-!
# Verification of `scraper.py` (lr_services)

A shallow embedding of the single source file `src/scraper.py` of the
`srkdroid/lr_services` repository, together with theorems settling the
frozen claims about it.

Modelling conventions:
* Python strings are modelled as `List Char` (`Text`); slicing, joining
  and splitting are explicit list functions.
* Python exceptions are the `PyErr` inductive; fallible code returns
  `Except PyErr _`.
* The browser/page and the network are the environment: a `PageEnv`
  records, for each interaction the script performs, whether that
  interaction succeeds, plus the content the page renders; a
  `Candidate` records whether navigating through that proxy succeeds.
* Resource handling (browser launch / close) is made observable by
  threading a `ConnState` with a list of live browser ids, so that the
  teardown invariant is a real statement and not true by construction.
-/

set_option autoImplicit false

/-- Python strings are modelled as lists of characters. -/
abbrev Text := List Char

/-- Coerce a Lean string literal to the `Text` model. -/
def txt (s : String) : Text := s.data

/-- Python truthiness of an optional string: `None` and `""` are falsy.
This models `if not TELEGRAM_TOKEN or not TELEGRAM_CHAT_ID` and
`all([TELEGRAM_TOKEN, TELEGRAM_CHAT_ID])`. -/
def pyTruthy : Option String → Bool
  | none => false
  | some s => !s.isEmpty

/-- The chunking loop of `send_telegram_message` (src/scraper.py line 49):
`for i in range(0, len(message_text), 4096): chunk = message_text[i:i + 4096]`.
Returns the successive slices in send order. -/
def telegramChunks : Text → List Text
  | [] => []
  | c :: cs => ((c :: cs).take 4096) :: telegramChunks ((c :: cs).drop 4096)
termination_by s => s.length
decreasing_by
  simp only [List.length_drop, List.length_cons]
  omega

/-- `send_telegram_message` (src/scraper.py lines 42-61), modelled by the
list of message texts POSTed to the Telegram API, in order.  With missing
credentials it short-circuits and posts nothing; delivery failures are
logged, never raised, so the posted chunks are exactly the loop's slices. -/
def send_telegram_message (token chatId : Option String) (text : Text) : List Text :=
  if pyTruthy token && pyTruthy chatId then telegramChunks text else []

theorem telegramChunks_length (s : Text) :
    (telegramChunks s).length = (s.length + 4095) / 4096 := by
  induction s using telegramChunks.induct with
  | case1 => simp [telegramChunks]
  | case2 c cs ih =>
    rw [telegramChunks]
    simp only [List.length_cons, List.length_drop] at ih ⊢
    omega

theorem telegramChunks_le (s : Text) : ∀ ch ∈ telegramChunks s, ch.length ≤ 4096 := by
  induction s using telegramChunks.induct with
  | case1 => intro ch h; simp [telegramChunks] at h
  | case2 c cs ih =>
    intro ch h
    rw [telegramChunks] at h
    rcases List.mem_cons.mp h with h | h
    · subst h
      simp only [List.length_take, List.length_cons]
      omega
    · exact ih ch h

theorem telegramChunks_flatten (s : Text) : (telegramChunks s).flatten = s := by
  induction s using telegramChunks.induct with
  | case1 => simp [telegramChunks]
  | case2 c cs ih =>
    rw [telegramChunks]
    simp only [List.flatten_cons, ih, List.take_append_drop]

/-- Claim C3: for any text of length `L`, the notification sender (with
credentials configured) emits exactly `⌈L/4096⌉` ordered send calls, each
chunk is at most 4096 characters, and the concatenation of the chunks in
send order equals the original text exactly. -/
theorem send_telegram_message_chunking (token chatId : Option String) (text : Text)
    (ht : pyTruthy token = true) (hc : pyTruthy chatId = true) :
    (send_telegram_message token chatId text).length = (text.length + 4096 - 1) / 4096 ∧
    (∀ ch ∈ send_telegram_message token chatId text, ch.length ≤ 4096) ∧
    (send_telegram_message token chatId text).flatten = text := by
  unfold send_telegram_message
  rw [ht, hc]
  simp only [Bool.and_self, if_true]
  exact ⟨telegramChunks_length text, telegramChunks_le text, telegramChunks_flatten text⟩

/-- Witness for C3 at a concrete input. -/
theorem send_telegram_message_chunking_witness :
    (send_telegram_message (some "t") (some "c") (txt "hi")).length
        = ((txt "hi").length + 4096 - 1) / 4096 ∧
    (∀ ch ∈ send_telegram_message (some "t") (some "c") (txt "hi"), ch.length ≤ 4096) ∧
    (send_telegram_message (some "t") (some "c") (txt "hi")).flatten = txt "hi" :=
  send_telegram_message_chunking (some "t") (some "c") (txt "hi") rfl rfl

/-! ## Configuration constants (src/scraper.py lines 12-25) -/

/-- `DISTRICT_NAME` (src/scraper.py line 16). -/
def DISTRICT_NAME : Text := txt "ಚಾಮರಾಜನಗರ"

/-- `TALUK_NAME` (src/scraper.py line 17). -/
def TALUK_NAME : Text := txt "ಕೊಳ್ಳೇಗಾಲ (ಹನೂರು)"

/-- `HOBLI_NAME` (src/scraper.py line 18). -/
def HOBLI_NAME : Text := txt "ಹನೂರು"

/-- `VILLAGE_NAME` (src/scraper.py line 19). -/
def VILLAGE_NAME : Text := txt "ಹುಲ್ಲೇಪುರ"

/-- The fixed divider line appended after the title and after each row
block (src/scraper.py lines 142 and 148): 38 dashes. -/
def DIVIDER_LINE : Text := txt "--------------------------------------"

/-- The newline character used by `"\n".join(...)`. -/
def NEWLINE : Char := '\n'

/-! ## Exceptions -/

/-- The Python exception classes that can surface in this script's
post-connection block, identified by class name (only the class name is
observable in the error notification). `targetClosed` models the
playwright error raised by operating on a page/browser that has already
been closed. -/
inductive PyErr
  | timeoutError
  | indexError
  | attributeError
  | targetClosed
  deriving DecidableEq

/-- `e.__class__.__name__` for the modelled exceptions. -/
def pyErrName : PyErr → Text
  | .timeoutError => txt "TimeoutError"
  | .indexError => txt "IndexError"
  | .attributeError => txt "AttributeError"
  | .targetClosed => txt "TargetClosedError"

/-! ## Result formatting (src/scraper.py lines 138-150) -/

/-- Python `str.strip()`: drop leading and trailing whitespace. -/
def pyStrip (s : Text) : Text :=
  ((s.dropWhile Char.isWhitespace).reverse.dropWhile Char.isWhitespace).reverse

/-- Python `sep.join(parts)` for a one-character separator. -/
def joinWith (sep : Char) : List Text → Text
  | [] => []
  | [x] => x
  | x :: y :: xs => x ++ sep :: joinWith sep (y :: xs)

/-- Splitting a text at every occurrence of `sep`; `(splitOnChar sep s).length`
is the number of lines of `s` when `sep` is the newline (Python
`len(s.split(sep))`). -/
def splitOnChar (sep : Char) : Text → List Text
  | [] => [[]]
  | c :: cs =>
    if c = sep then [] :: splitOnChar sep cs
    else
      match splitOnChar sep cs with
      | [] => [[c]]
      | h :: t => (c :: h) :: t

/-- One rendered record line (src/scraper.py line 146):
`f"*{headers[i+1]}*: {cells[i+1].inner_text().strip()}"`, where `h` is the
(already stripped) header label and `c` the raw cell text. -/
def detailLine (h c : Text) : Text := txt "*" ++ h ++ txt "*: " ++ pyStrip c

/-- The list comprehension of src/scraper.py line 146, iterating over the
given index list in order; an out-of-range access raises `IndexError`, as
Python list indexing does. -/
def build_records (headers cells : List Text) : List Nat → Except PyErr (List Text)
  | [] => .ok []
  | i :: is =>
    match headers[i+1]? with
    | none => .error .indexError
    | some h =>
      match cells[i+1]? with
      | none => .error .indexError
      | some c =>
        match build_records headers cells is with
        | .error e => .error e
        | .ok rest => .ok (detailLine h c :: rest)

/-- `record_details` for one row (src/scraper.py line 146):
`[f"*{headers[i+1]}*: {cells[i+1].inner_text().strip()}" for i in range(len(headers)-1)]`. -/
def record_details (headers cells : List Text) : Except PyErr (List Text) :=
  build_records headers cells (List.range (headers.length - 1))

/-- The per-row loop of src/scraper.py lines 144-148: for each row append
the newline-joined record details and then the divider line. -/
def format_rows (headers : List Text) : List (List Text) → Except PyErr (List Text)
  | [] => .ok []
  | row :: rest =>
    match record_details headers row with
    | .error e => .error e
    | .ok details =>
      match format_rows headers rest with
      | .error e => .error e
      | .ok more => .ok (joinWith NEWLINE details :: DIVIDER_LINE :: more)

/-- The title line (src/scraper.py line 141):
`f"📄 *Bhoomi Mutation Status for {VILLAGE_NAME}*"`. -/
def title_line (village : Text) : Text :=
  txt "📄 *Bhoomi Mutation Status for " ++ village ++ txt "*"

/-- `message_lines` as built by src/scraper.py lines 141-148: title,
divider, then the per-row blocks. -/
def message_lines (headers : List Text) (rows : List (List Text)) (village : Text) :
    Except PyErr (List Text) :=
  match format_rows headers rows with
  | .error e => .error e
  | .ok rs => .ok (title_line village :: DIVIDER_LINE :: rs)

/-- `final_message = "\n".join(message_lines)` (src/scraper.py line 150). -/
def final_message (headers : List Text) (rows : List (List Text)) (village : Text) :
    Except PyErr Text :=
  (message_lines headers rows village).map (joinWith NEWLINE)

/-- The number of lines of a successfully formatted message (`none` when
formatting raised). -/
def okLineCount (r : Except PyErr Text) : Option Nat :=
  match r with
  | .ok m => some (splitOnChar NEWLINE m).length
  | .error _ => none

/-! ## Claim C8: short rows fail fast -/

theorem build_records_error (headers cells : List Text) :
    ∀ idxs : List Nat, (∃ i ∈ idxs, headers.length ≤ i + 1 ∨ cells.length ≤ i + 1) →
    build_records headers cells idxs = .error .indexError := by
  intro idxs
  induction idxs with
  | nil => intro h; simp at h
  | cons i is ih =>
    intro h
    rw [build_records]
    rcases hh : headers[i+1]? with _ | hdr
    · rfl
    · rcases hc : cells[i+1]? with _ | cell
      · rfl
      · have hih : headers.length > i + 1 ∨ headers.length = i + 1 ∨ headers.length ≤ i + 1 := by omega
        have hhlt : i + 1 < headers.length := by
          by_contra hcon
          rw [List.getElem?_eq_none (by omega)] at hh
          exact Option.noConfusion hh
        have hclt : i + 1 < cells.length := by
          by_contra hcon
          rw [List.getElem?_eq_none (by omega)] at hc
          exact Option.noConfusion hc
        rcases h with ⟨j, hj, hjbad⟩
        rcases List.mem_cons.mp hj with rfl | hj
        · omega
        · rw [ih ⟨j, hj, hjbad⟩]

/-- Claim C8: for every extracted table in which some row has fewer cells
than the header count minus one, building that row's record raises the
data-shape failure (Python's `IndexError` from the out-of-bounds cell
access) instead of returning a silently truncated row. -/
theorem record_details_short_row_fails (headers cells : List Text)
    (h : cells.length < headers.length - 1) :
    record_details headers cells = .error .indexError := by
  apply build_records_error
  refine ⟨cells.length, ?_, Or.inr (by omega)⟩
  rw [List.mem_range]
  omega

/-- Witness for C8 at a concrete input: three headers, a row with one cell. -/
theorem record_details_short_row_fails_witness :
    record_details [txt "#", txt "Type", txt "Date"] [txt "1"] = .error .indexError :=
  record_details_short_row_fails [txt "#", txt "Type", txt "Date"] [txt "1"] (by decide)

/-! ## Join/split algebra for line counting -/

theorem joinWith_cons (sep : Char) (a : Text) (L : List Text) :
    joinWith sep (a :: L) = if L.isEmpty then a else a ++ sep :: joinWith sep L := by
  cases L <;> rfl

theorem joinWith_append_cons (sep : Char) (x B : Text) (rest : List Text) :
    joinWith sep ((x ++ sep :: B) :: rest) = x ++ sep :: joinWith sep (B :: rest) := by
  cases rest <;> simp [joinWith, List.cons_append, List.append_assoc]

theorem joinWith_head_flatten (sep : Char) :
    ∀ (d rest : List Text), d ≠ [] →
    joinWith sep (joinWith sep d :: rest) = joinWith sep (d ++ rest) := by
  intro d
  induction d with
  | nil => intro rest h; exact absurd rfl h
  | cons x d' ih =>
    intro rest _
    rcases d' with _ | ⟨y, ys⟩
    · rfl
    · rw [show joinWith sep (x :: y :: ys) = x ++ sep :: joinWith sep (y :: ys) from rfl]
      rw [joinWith_append_cons sep x (joinWith sep (y :: ys)) rest]
      rw [show joinWith sep (joinWith sep (y :: ys) :: rest)
            = joinWith sep ((y :: ys) ++ rest) from ih rest (by simp)]
      rfl

theorem joinWith_congr_append (sep : Char) (X Y : List Text)
    (hxy : joinWith sep X = joinWith sep Y) (hiff : X = [] ↔ Y = []) :
    ∀ A : List Text, joinWith sep (A ++ X) = joinWith sep (A ++ Y) := by
  intro A
  induction A with
  | nil => simpa using hxy
  | cons a A' ih =>
    rw [List.cons_append, List.cons_append, joinWith_cons, joinWith_cons]
    have he : (A' ++ X).isEmpty = (A' ++ Y).isEmpty := by
      rcases A' with _ | ⟨b, bs⟩
      · simp only [List.nil_append]
        cases hX : X <;> cases hY : Y <;> simp_all
      · rfl
    rw [he]
    by_cases hcase : (A' ++ Y).isEmpty = true
    · rw [if_pos hcase, if_pos hcase]
    · rw [if_neg hcase, if_neg hcase, ih]

theorem splitOnChar_of_not_mem (sep : Char) :
    ∀ s : Text, sep ∉ s → splitOnChar sep s = [s] := by
  intro s
  induction s with
  | nil => intro _; rfl
  | cons c cs ih =>
    intro h
    have hcne : c ≠ sep := by
      intro hc
      apply h
      rw [← hc]
      exact List.mem_cons_self c cs
    rw [splitOnChar]
    rw [if_neg hcne]
    rw [ih (fun hm => h (List.mem_cons_of_mem c hm))]

theorem splitOnChar_append_sep (sep : Char) :
    ∀ x r : Text, sep ∉ x →
    splitOnChar sep (x ++ sep :: r) = x :: splitOnChar sep r := by
  intro x
  induction x with
  | nil => intro r _; rw [List.nil_append, splitOnChar, if_pos rfl]
  | cons c cs ih =>
    intro r h
    have hcne : c ≠ sep := by
      intro hc
      apply h
      rw [← hc]
      exact List.mem_cons_self c cs
    rw [List.cons_append, splitOnChar]
    rw [if_neg hcne]
    rw [ih r (fun hm => h (List.mem_cons_of_mem c hm))]

theorem splitOnChar_joinWith (sep : Char) :
    ∀ L : List Text, L ≠ [] → (∀ l ∈ L, sep ∉ l) →
    splitOnChar sep (joinWith sep L) = L := by
  intro L
  induction L with
  | nil => intro h; exact absurd rfl h
  | cons x L' ih =>
    intro _ hmem
    rcases L' with _ | ⟨y, ys⟩
    · exact splitOnChar_of_not_mem sep x (hmem x (by simp))
    · rw [show joinWith sep (x :: y :: ys) = x ++ sep :: joinWith sep (y :: ys) from rfl]
      rw [splitOnChar_append_sep sep x _ (hmem x (by simp))]
      rw [ih (by simp) (fun l hl => hmem l (List.mem_cons_of_mem x hl))]

/-! ## Newline-freedom helpers -/

theorem mem_of_mem_dropWhile {p : Char → Bool} :
    ∀ {s : Text} {c : Char}, c ∈ s.dropWhile p → c ∈ s := by
  intro s
  induction s with
  | nil => intro c h; simp [List.dropWhile] at h
  | cons a as ih =>
    intro c h
    rw [List.dropWhile_cons] at h
    by_cases hpa : p a = true
    · rw [if_pos hpa] at h
      exact List.mem_cons_of_mem a (ih h)
    · rw [if_neg hpa] at h
      exact h

theorem mem_pyStrip {s : Text} {c : Char} (h : c ∈ pyStrip s) : c ∈ s := by
  unfold pyStrip at h
  rw [List.mem_reverse] at h
  have h1 := mem_of_mem_dropWhile h
  rw [List.mem_reverse] at h1
  exact mem_of_mem_dropWhile h1

theorem newline_not_mem_detailLine {h c : Text}
    (hh : NEWLINE ∉ h) (hc : NEWLINE ∉ c) : NEWLINE ∉ detailLine h c := by
  unfold detailLine
  intro hm
  rcases List.mem_append.mp hm with hm | hm
  · rcases List.mem_append.mp hm with hm | hm
    · rcases List.mem_append.mp hm with hm | hm
      · exact absurd hm (by decide)
      · exact hh hm
    · exact absurd hm (by decide)
  · exact hc (mem_pyStrip hm)

/-! ## Well-shaped tables format successfully -/

theorem build_records_ok (headers cells : List Text) :
    ∀ idxs : List Nat, (∀ i ∈ idxs, i + 1 < headers.length ∧ i + 1 < cells.length) →
    ∃ lines, build_records headers cells idxs = .ok lines ∧
      lines.length = idxs.length ∧
      ∀ l ∈ lines, ∃ h ∈ headers, ∃ c ∈ cells, l = detailLine h c := by
  intro idxs
  induction idxs with
  | nil => intro _; exact ⟨[], rfl, rfl, by simp⟩
  | cons i is ih =>
    intro hbound
    obtain ⟨hhd, hcd⟩ := hbound i (List.mem_cons_self i is)
    obtain ⟨rest, hrest, hlen, hmem⟩ := ih (fun j hj => hbound j (List.mem_cons_of_mem i hj))
    refine ⟨detailLine headers[i+1] cells[i+1] :: rest, ?_, ?_, ?_⟩
    · rw [build_records, List.getElem?_eq_getElem hhd, List.getElem?_eq_getElem hcd, hrest]
    · simp [hlen]
    · intro l hl
      rcases List.mem_cons.mp hl with rfl | hl
      · exact ⟨headers[i+1], List.getElem_mem hhd, cells[i+1], List.getElem_mem hcd, rfl⟩
      · exact hmem l hl

theorem record_details_ok (headers row : List Text) (H : Nat)
    (hH : headers.length = H) (hrow : row.length = H) (h1 : 1 ≤ H) :
    ∃ d, record_details headers row = .ok d ∧ d.length = H - 1 ∧
      ∀ l ∈ d, ∃ h ∈ headers, ∃ c ∈ row, l = detailLine h c := by
  obtain ⟨d, hd, hlen, hmem⟩ := build_records_ok headers row (List.range (headers.length - 1))
    (fun i hi => by rw [List.mem_range] at hi; omega)
  exact ⟨d, hd, by simp only [List.length_range] at hlen; omega, hmem⟩

theorem format_rows_spec (headers : List Text) (H : Nat)
    (hH : headers.length = H) (h2 : 2 ≤ H)
    (hhnl : ∀ h ∈ headers, NEWLINE ∉ h) :
    ∀ rows : List (List Text), (∀ row ∈ rows, row.length = H) →
    (∀ row ∈ rows, ∀ c ∈ row, NEWLINE ∉ c) →
    ∃ rs flat, format_rows headers rows = .ok rs ∧
      (rs = [] ↔ flat = []) ∧
      flat.length = rows.length * H ∧
      (∀ l ∈ flat, NEWLINE ∉ l) ∧
      ∀ tail : List Text, joinWith NEWLINE (rs ++ tail) = joinWith NEWLINE (flat ++ tail) := by
  intro rows
  induction rows with
  | nil => intro _ _; exact ⟨[], [], rfl, by simp, by simp, by simp, fun tail => rfl⟩
  | cons row rows' ih =>
    intro hlen hnl
    obtain ⟨d, hd, hdlen, hdmem⟩ :=
      record_details_ok headers row H hH (hlen row (List.mem_cons_self row rows')) (by omega)
    obtain ⟨rs', flat', hrs', hiff, hflen, hfnl, hjoin⟩ :=
      ih (fun r hr => hlen r (List.mem_cons_of_mem row hr))
        (fun r hr => hnl r (List.mem_cons_of_mem row hr))
    have hdne : d ≠ [] := by
      intro hdnil
      rw [hdnil] at hdlen
      simp at hdlen
      omega
    refine ⟨joinWith NEWLINE d :: DIVIDER_LINE :: rs', d ++ DIVIDER_LINE :: flat',
      ?_, ?_, ?_, ?_, ?_⟩
    · rw [format_rows, hd, hrs']
    · constructor
      · exact fun hcontra => absurd hcontra (List.cons_ne_nil _ _)
      · intro hcontra
        obtain ⟨-, hflatnil⟩ := List.append_eq_nil.mp hcontra
        exact absurd hflatnil (List.cons_ne_nil _ _)
    · simp only [List.length_append, List.length_cons, hdlen, hflen, Nat.succ_mul]
      omega
    · intro l hl
      rcases List.mem_append.mp hl with hl | hl
      · obtain ⟨h, hh, c, hc, rfl⟩ := hdmem l hl
        exact newline_not_mem_detailLine (hhnl h hh)
          (hnl row (List.mem_cons_self row rows') c hc)
      · rcases List.mem_cons.mp hl with rfl | hl
        · decide
        · exact hfnl l hl
    · intro tail
      rw [List.cons_append, List.cons_append,
          joinWith_head_flatten NEWLINE d (DIVIDER_LINE :: (rs' ++ tail)) hdne]
      have hcong := joinWith_congr_append NEWLINE (rs' ++ tail) (flat' ++ tail) (hjoin tail)
          (by rw [List.append_eq_nil, List.append_eq_nil, hiff]) (d ++ [DIVIDER_LINE])
      simpa [List.append_assoc] using hcong

/-- Claim C6 (amended): for every `ResultTable` with `H ≥ 2` headers and
`R` rows of `H` cells each, all texts newline-free, the formatted message
is produced successfully and consists of exactly
`R*(H-1) + R + 2` lines: `R` row-blocks of `H-1` label/value lines each,
`R` trailing dividers, the title line and the leading divider.  The
formatter is a pure function, hence deterministic on identical input. -/
theorem format_line_count (headers : List Text) (rows : List (List Text)) (village : Text)
    (H : Nat) (hH : headers.length = H) (h2 : 2 ≤ H)
    (hrows : ∀ row ∈ rows, row.length = H)
    (hhnl : ∀ h ∈ headers, NEWLINE ∉ h)
    (hrnl : ∀ row ∈ rows, ∀ c ∈ row, NEWLINE ∉ c)
    (hvnl : NEWLINE ∉ village) :
    okLineCount (final_message headers rows village)
      = some (rows.length * (H - 1) + rows.length + 2) := by
  obtain ⟨rs, flat, hrs, hiff, hflen, hfnl, hjoin⟩ :=
    format_rows_spec headers H hH h2 hhnl rows hrows hrnl
  have hmsg : final_message headers rows village
      = .ok (joinWith NEWLINE (title_line village :: DIVIDER_LINE :: rs)) := by
    unfold final_message message_lines
    rw [hrs]
    rfl
  have hjoin0 : joinWith NEWLINE rs = joinWith NEWLINE flat := by
    have h0 := hjoin []
    simpa using h0
  have hflat : joinWith NEWLINE (title_line village :: DIVIDER_LINE :: rs)
      = joinWith NEWLINE (title_line village :: DIVIDER_LINE :: flat) := by
    have hcong := joinWith_congr_append NEWLINE rs flat hjoin0 hiff
      [title_line village, DIVIDER_LINE]
    simpa using hcong
  have hnlall : ∀ l ∈ title_line village :: DIVIDER_LINE :: flat, NEWLINE ∉ l := by
    intro l hl
    rcases List.mem_cons.mp hl with rfl | hl
    · unfold title_line
      intro hm
      rcases List.mem_append.mp hm with hm | hm
      · rcases List.mem_append.mp hm with hm | hm
        · exact absurd hm (by decide)
        · exact hvnl hm
      · exact absurd hm (by decide)
    · rcases List.mem_cons.mp hl with rfl | hl
      · decide
      · exact hfnl l hl
  have hsplit := splitOnChar_joinWith NEWLINE (title_line village :: DIVIDER_LINE :: flat)
    (by simp) hnlall
  rw [hmsg]
  simp only [okLineCount, hflat, hsplit, List.length_cons, Option.some.injEq]
  have hmul : rows.length * (H - 1) + rows.length = rows.length * H := by
    rw [← Nat.mul_succ]
    congr 1
    omega
  omega

/-- Claim C6 counterexample: for a table with `H = 1` header and one row
of one cell, the formatted message has 4 lines (the empty row-block still
occupies a line), not the claimed `R*(H-1) + R + 2 = 3`; so the stated
line-count law does not hold for all magnitudes of `H`. -/
theorem format_line_count_cex :
    okLineCount (final_message [txt "#"] [[txt "1"]] (txt "V")) = some 4 ∧
    4 ≠ 1 * (1 - 1) + 1 + 2 := by
  constructor
  · decide
  · decide

/-- Witness for the amended C6 at a concrete input. -/
theorem format_line_count_witness :
    okLineCount (final_message [txt "#", txt "Type"] [[txt "1", txt "Sale"]] (txt "V"))
      = some (1 * (2 - 1) + 1 + 2) :=
  format_line_count [txt "#", txt "Type"] [[txt "1", txt "Sale"]] (txt "V") 2
    (by decide) (by decide) (by decide) (by decide) (by decide) (by decide)

/-! ## Messages sent by the orchestrator (src/scraper.py lines 67, 134, 155, 160) -/

/-- The empty-result confirmation (src/scraper.py line 134):
`f"✅ Bhoomi Bot: No new transaction data found for {VILLAGE_NAME} village."`. -/
def no_data_message : Text :=
  txt "✅ Bhoomi Bot: No new transaction data found for " ++ VILLAGE_NAME ++ txt " village."

/-- The no-proxies abort message (src/scraper.py line 67). -/
def proxy_error_message : Text :=
  txt "❌ *Bhoomi Bot Error*: Could not fetch any proxies to use. Aborting run."

/-- `error_message` (src/scraper.py line 155). -/
def error_message_for (e : PyErr) : Text :=
  txt "An error occurred after connecting: " ++ pyErrName e ++ txt ". Check logs."

/-- The error chat message (src/scraper.py line 160). -/
def error_notification (e : PyErr) : Text :=
  txt "❌ *Bhoomi Bot Error*: " ++ error_message_for e ++
    txt ". A screenshot was saved to the GitHub Actions artifacts."

/-! ## Connection establisher (src/scraper.py lines 76-102) -/

/-- A proxy candidate together with its behaviour in this run's
environment: whether opening the target page through it succeeds, and the
exception class raised when it fails.  (Failures are modelled at the
`page.goto` step, the dominant failure point for a bad proxy; launch and
context creation succeed.) -/
structure Candidate where
  server : Text
  connects : Bool
  failure : PyErr
  deriving DecidableEq

/-- Observable browser-resource state threaded through the proxy loop:
how many `p.firefox.launch` calls were made, a fresh-id counter, the ids
of browsers currently open, and the Python `browser` variable. -/
structure ConnState where
  launches : Nat
  nextId : Nat
  live : List Nat
  browserVar : Option Nat
  deriving DecidableEq

/-- State before the loop: `page = None; browser = None` (lines 70-71). -/
def initConnState : ConnState :=
  { launches := 0, nextId := 0, live := [], browserVar := none }

/-- How the proxy loop exits: `break` with a live session bound to a
candidate, `raise e` on the 10th failed attempt, or falling off the end
of the iteration without either. -/
inductive LoopRes
  | connected (c : Candidate)
  | raisedE (e : PyErr)
  | fell
  deriving DecidableEq

/-- The `for i, proxy_server in enumerate(proxies[:10])` body
(src/scraper.py lines 76-102): launch a browser, try the navigation;
on success `break`; on failure close the browser and, only if this was
attempt number 10 (`if (i + 1) == 10`), re-raise; otherwise continue. -/
def connect_attempts : List Candidate → Nat → ConnState → ConnState × LoopRes
  | [], _, s => (s, .fell)
  | c :: rest, i, s =>
    if c.connects then
      ({ launches := s.launches + 1, nextId := s.nextId + 1,
         live := s.nextId :: s.live, browserVar := some s.nextId }, .connected c)
    else
      if i + 1 = 10 then
        ({ launches := s.launches + 1, nextId := s.nextId + 1,
           live := (s.nextId :: s.live).erase s.nextId, browserVar := some s.nextId },
         .raisedE c.failure)
      else
        connect_attempts rest (i + 1)
          { launches := s.launches + 1, nextId := s.nextId + 1,
            live := (s.nextId :: s.live).erase s.nextId, browserVar := some s.nextId }

/-- The whole proxy loop: iterate over `proxies[:10]`. -/
def connect_loop (proxies : List Candidate) (s : ConnState) : ConnState × LoopRes :=
  connect_attempts (proxies.take 10) 0 s

/-! ## Form navigation and extraction (src/scraper.py lines 105-151) -/

/-- The page's behaviour during one run: whether each interaction the
script performs succeeds, and what content the results area renders.
`settle*` is whether the corresponding
`page.wait_for_load_state('networkidle', timeout=...)` reaches the idle
state within its timeout (`false` = the wait times out).  `renderedRows`
is the list of `td`-text rows that materialize in the `transland`
container (`[]` = no row element ever appears, so the row-selector wait
at line 129 times out). -/
structure PageEnv where
  selectDistrictOk : Bool
  settleDistrict : Bool
  selectTalukOk : Bool
  settleTaluk : Bool
  selectHobliOk : Bool
  settleHobli : Bool
  selectVillageOk : Bool
  settleVillage : Bool
  clickFetchOk : Bool
  renderedRows : List (List Text)
  headerCells : List Text
  deriving DecidableEq

/-- The `try` block of src/scraper.py lines 105-152 run against a live
page, returning the list of `send_telegram_message` calls it makes on a
normal exit, or the raised exception.  Every `select_option`,
`wait_for_load_state`, `click` and `wait_for_selector` failure is a
playwright `TimeoutError`; note that a settle-wait timeout raises and is
caught by the same `except` as everything else.  The `if not rows` branch
(line 132) is kept exactly as written even though the preceding
row-selector wait makes it unreachable. -/
def try_block_live (p : PageEnv) : Except PyErr (List Text) :=
  if !p.selectDistrictOk then .error .timeoutError
  else if !p.settleDistrict then .error .timeoutError
  else if !p.selectTalukOk then .error .timeoutError
  else if !p.settleTaluk then .error .timeoutError
  else if !p.selectHobliOk then .error .timeoutError
  else if !p.settleHobli then .error .timeoutError
  else if !p.selectVillageOk then .error .timeoutError
  else if !p.settleVillage then .error .timeoutError
  else if !p.clickFetchOk then .error .timeoutError
  else if p.renderedRows.isEmpty then .error .timeoutError
  else if p.renderedRows.isEmpty then .ok [no_data_message]
  else
    match final_message (p.headerCells.map pyStrip) p.renderedRows VILLAGE_NAME with
    | .error e => .error e
    | .ok m => .ok [m]

/-- What the Python `page` variable refers to after the proxy loop:
nothing was ever assigned (impossible once the loop ran, each attempt
assigns `page` before `goto`), a page whose browser was closed by a
failed attempt, or the live page of a successful connection. -/
inductive PagePost
  | noPage
  | closedPage
  | livePage (p : PageEnv)
  deriving DecidableEq

/-- The `try` block dispatched on the page's state: with `page = None`
the first `page.locator(...)` raises `AttributeError`; with a closed page
the first interaction raises the playwright target-closed error. -/
def try_block : PagePost → Except PyErr (List Text)
  | .noPage => .error .attributeError
  | .closedPage => .error .targetClosed
  | .livePage p => try_block_live p

/-- How the process run terminates: a normal return or an uncaught
exception (which makes the Python process exit non-zero). -/
inductive RunExit
  | normal
  | raised (e : PyErr)
  deriving DecidableEq

/-- Observables of one `scrape_bhoomi_data` run: the
`send_telegram_message` calls in order, the number of browser launches,
the browsers still open at exit, whether a screenshot was written, and
how the call terminated. -/
structure RunResult where
  notifications : List Text
  launches : Nat
  live : List Nat
  screenshot : Bool
  exit : RunExit
  deriving DecidableEq

/-- The `finally: if browser: browser.close()` teardown
(src/scraper.py lines 162-165). -/
def close_browser (s : ConnState) : List Nat :=
  match s.browserVar with
  | some id => s.live.erase id
  | none => s.live

/-- The `try/except/finally` of src/scraper.py lines 105-165, entered
after the proxy loop finished without raising.  On an exception: if
`page` is truthy a screenshot is attempted — on a closed page the
screenshot call itself raises, so no error notification is sent on that
path; on a live page the screenshot is written and the error
notification sent; the original exception is re-raised.  The `finally`
always closes the `browser` variable's browser. -/
def run_after_loop (post : PagePost) (s : ConnState) : RunResult :=
  match try_block post with
  | .ok msgs =>
    { notifications := msgs, launches := s.launches, live := close_browser s,
      screenshot := false, exit := .normal }
  | .error e =>
    match post with
    | .noPage =>
      { notifications := [error_notification e], launches := s.launches,
        live := close_browser s, screenshot := false, exit := .raised e }
    | .closedPage =>
      { notifications := [], launches := s.launches, live := close_browser s,
        screenshot := false, exit := .raised .targetClosed }
    | .livePage _ =>
      { notifications := [error_notification e], launches := s.launches,
        live := close_browser s, screenshot := true, exit := .raised e }

/-- The environment of one run: the (already shuffled) proxy list the
proxy source produced, and the page's behaviour. -/
structure Env where
  proxies : List Candidate
  page : PageEnv
  deriving DecidableEq

/-- `scrape_bhoomi_data` (src/scraper.py lines 63-165): abort with one
error notification when the proxy list is empty; otherwise run the proxy
loop and then the post-connection block (on a `raise` inside the loop
the `try/finally` was never entered, so the exception propagates
directly). -/
def scrape_bhoomi_data (env : Env) : RunResult :=
  if env.proxies.isEmpty then
    { notifications := [proxy_error_message], launches := 0, live := [],
      screenshot := false, exit := .normal }
  else
    match connect_loop env.proxies initConnState with
    | (s, .raisedE e) =>
      { notifications := [], launches := s.launches, live := s.live,
        screenshot := false, exit := .raised e }
    | (s, .fell) => run_after_loop .closedPage s
    | (s, .connected _) => run_after_loop (.livePage env.page) s

/-- Result of the `if __name__ == "__main__"` guard. -/
structure MainResult where
  loggedCritical : Bool
  ranScrape : Bool
  run : Option RunResult
  exitCode : Nat
  deriving DecidableEq

/-- The `__main__` guard (src/scraper.py lines 167-171): if
`all([TELEGRAM_TOKEN, TELEGRAM_CHAT_ID])` fails, log the critical error
and fall off the end (exit status 0); otherwise run the scrape, the
process exiting 1 on an uncaught exception and 0 on a normal return. -/
def main_entry (token chatId : Option String) (env : Env) : MainResult :=
  if pyTruthy token && pyTruthy chatId then
    { loggedCritical := false, ranScrape := true, run := some (scrape_bhoomi_data env),
      exitCode := match (scrape_bhoomi_data env).exit with
        | .normal => 0
        | .raised _ => 1 }
  else
    { loggedCritical := true, ranScrape := false, run := none, exitCode := 0 }

/-! ## Concrete fixtures -/

/-- A candidate whose navigation succeeds. -/
def goodProxy : Candidate :=
  { server := txt "1.2.3.4:8080", connects := true, failure := .timeoutError }

/-- A candidate whose navigation times out. -/
def badCand : Candidate :=
  { server := txt "10.0.0.1:3128", connects := false, failure := .timeoutError }

/-- A page on which every interaction succeeds and every settle wait
reaches idle, rendering the given rows and headers. -/
def allOkPage (rows : List (List Text)) (hdrs : List Text) : PageEnv :=
  { selectDistrictOk := true, settleDistrict := true, selectTalukOk := true,
    settleTaluk := true, selectHobliOk := true, settleHobli := true,
    selectVillageOk := true, settleVillage := true, clickFetchOk := true,
    renderedRows := rows, headerCells := hdrs }

/-- A page where every control is interactable and rows render, but the
first settle wait times out. -/
def settleTimeoutPage : PageEnv :=
  { allOkPage [[txt "1", txt "Sale"]] [txt "#", txt "Type"] with settleDistrict := false }

/-! ## Claim C1: zero rendered rows -/

/-- Claim C1 (code_bug evidence): with a working proxy, all form
interactions succeeding, and the results container rendering zero row
elements, the run does NOT return the distinguished empty outcome: the
row-selector wait times out, the run takes the error path (screenshot
written, one error notification naming `TimeoutError`), and terminates by
re-raising — the short "no new transaction data" confirmation is never
sent.  The confirming branch at src/scraper.py line 132 is unreachable. -/
theorem zero_rows_raises_timeout :
    (scrape_bhoomi_data { proxies := [goodProxy], page := allOkPage [] [] }).exit
        = .raised .timeoutError ∧
    (scrape_bhoomi_data { proxies := [goodProxy], page := allOkPage [] [] }).notifications
        = [error_notification .timeoutError] ∧
    no_data_message ∉
      (scrape_bhoomi_data { proxies := [goodProxy], page := allOkPage [] [] }).notifications ∧
    (scrape_bhoomi_data { proxies := [goodProxy], page := allOkPage [] [] }).screenshot
        = true := by
  decide

/-! ## Claim C2: all candidates failing, list shorter than the cap -/

/-- Claim C2 (code_bug evidence): with 3 candidates that all fail, the
proxy loop neither connects nor raises — the re-raise is gated on
`(i + 1) == 10`, so for a list shorter than the cap the loop just falls
through after trying all 3, and no failure is propagated to the caller
at that point. -/
theorem all_failing_short_list_falls_through :
    (connect_loop [badCand, badCand, badCand] initConnState).2 = .fell ∧
    (connect_loop [badCand, badCand, badCand] initConnState).1.launches = 3 := by
  decide

/-! ## Claim C4: settle-wait timeouts -/

/-- Claim C4 counterexample: a run in which the first settle wait times
out while every control (district, taluk, hobli, village, fetch button)
is interactable and rows render; the claim says navigation completes
without raising, but the run raises `TimeoutError`. -/
theorem settle_timeout_fatal_cex :
    (scrape_bhoomi_data { proxies := [goodProxy], page := settleTimeoutPage }).exit
        = .raised .timeoutError ∧
    (scrape_bhoomi_data { proxies := [goodProxy], page := settleTimeoutPage }).exit
        ≠ .normal := by
  decide

/-- Claim C4 (amended): a wait-for-settle timeout after a dropdown
selection is by itself fatal — `wait_for_load_state` raises on timeout
inside the navigation `try` block, so whenever any settle wait times out
the navigation block raises `TimeoutError`, even though every control is
still interactable. -/
theorem settle_timeout_raises (p : PageEnv)
    (hd : p.selectDistrictOk = true) (ht : p.selectTalukOk = true)
    (hh : p.selectHobliOk = true) (hv : p.selectVillageOk = true)
    (hc : p.clickFetchOk = true)
    (hs : ¬(p.settleDistrict = true ∧ p.settleTaluk = true ∧
            p.settleHobli = true ∧ p.settleVillage = true)) :
    try_block_live p = .error .timeoutError := by
  cases hsd : p.settleDistrict with
  | false => simp [try_block_live, hd, hsd]
  | true =>
    cases hst : p.settleTaluk with
    | false => simp [try_block_live, hd, hsd, ht, hst]
    | true =>
      cases hsh : p.settleHobli with
      | false => simp [try_block_live, hd, hsd, ht, hst, hh, hsh]
      | true =>
        cases hsv : p.settleVillage with
        | false => simp [try_block_live, hd, hsd, ht, hst, hh, hsh, hv, hsv]
        | true => exact absurd ⟨hsd, hst, hsh, hsv⟩ hs

/-- Witness for the amended C4 at a concrete input. -/
theorem settle_timeout_raises_witness :
    try_block_live settleTimeoutPage = .error .timeoutError :=
  settle_timeout_raises settleTimeoutPage rfl rfl rfl rfl rfl (by decide)

/-! ## Claim C5: guaranteed session teardown -/

theorem connect_attempts_closes (cands : List Candidate) :
    ∀ (i : Nat) (s : ConnState), s.live = [] →
    (connect_attempts cands i s).1.live = [] ∨
      ∃ id, (connect_attempts cands i s).1.browserVar = some id ∧
            (connect_attempts cands i s).1.live = [id] := by
  induction cands with
  | nil => intro i s h; left; exact h
  | cons a rest ih =>
    intro i s h
    rw [connect_attempts]
    by_cases hconn : a.connects = true
    · rw [if_pos hconn]
      right
      refine ⟨s.nextId, rfl, ?_⟩
      show s.nextId :: s.live = [s.nextId]
      rw [h]
    · rw [if_neg hconn]
      by_cases hi : i + 1 = 10
      · rw [if_pos hi]
        left
        show (s.nextId :: s.live).erase s.nextId = []
        rw [h, List.erase_cons_head]
      · rw [if_neg hi]
        apply ih
        show (s.nextId :: s.live).erase s.nextId = []
        rw [h, List.erase_cons_head]

theorem close_browser_of (s : ConnState)
    (h : s.live = [] ∨ ∃ id, s.browserVar = some id ∧ s.live = [id]) :
    close_browser s = [] := by
  rcases hbv : s.browserVar with _ | id'
  · rw [close_browser, hbv]
    rcases h with h | ⟨id, hid, -⟩
    · exact h
    · rw [hbv] at hid
      exact Option.noConfusion hid
  · rw [close_browser, hbv]
    rcases h with h | ⟨id, hid, hl⟩
    · show s.live.erase id' = []
      rw [h, List.erase_nil]
    · rw [hbv, Option.some.injEq] at hid
      show s.live.erase id' = []
      rw [hid, hl, List.erase_cons_head]

theorem run_after_loop_live (post : PagePost) (s : ConnState) :
    (run_after_loop post s).live = close_browser s := by
  rcases htb : try_block post with e | msgs
  · rw [run_after_loop, htb]
    cases post <;> rfl
  · rw [run_after_loop, htb]

/-- Claim C5: on every execution path that leaves a successful connection
— success with data, empty result, or any exception during navigation,
extraction or reporting — the browser session is closed before the run
terminates: no live browser remains in the final state. -/
theorem session_closed_after_connection (env : Env) (c : Candidate)
    (h : (connect_loop env.proxies initConnState).2 = .connected c) :
    (scrape_bhoomi_data env).live = [] := by
  rw [scrape_bhoomi_data]
  by_cases hp : env.proxies.isEmpty
  · rw [List.isEmpty_iff] at hp
    rw [connect_loop, hp] at h
    simp [connect_attempts] at h
  · rw [if_neg hp]
    have hinv := connect_attempts_closes (env.proxies.take 10) 0 initConnState rfl
    rcases hres : connect_loop env.proxies initConnState with ⟨s, res⟩
    rw [hres] at h
    rw [connect_loop] at hres
    cases res with
    | raisedE e => exact absurd h (by simp)
    | fell => exact absurd h (by simp)
    | connected c' =>
      rw [run_after_loop_live]
      apply close_browser_of
      rw [hres] at hinv
      exact hinv

/-- Witness for C5 at a concrete input. -/
theorem session_closed_after_connection_witness :
    (connect_loop [goodProxy] initConnState).2 = .connected goodProxy ∧
    (scrape_bhoomi_data
        { proxies := [goodProxy],
          page := allOkPage [[txt "1", txt "Sale"]] [txt "#", txt "Type"] }).live = [] :=
  ⟨by decide,
    session_closed_after_connection
      { proxies := [goodProxy], page := allOkPage [[txt "1", txt "Sale"]] [txt "#", txt "Type"] }
      goodProxy (by decide)⟩

/-! ## Claim C7: first success at position k -/

theorem getElem?_take_of_lt {α : Type} (l : List α) :
    ∀ (n j : Nat), j < n → (l.take n)[j]? = l[j]? := by
  induction l with
  | nil => intro n j _; simp
  | cons a as ih =>
    intro n j hj
    cases n with
    | zero => omega
    | succ n' =>
      cases j with
      | zero => rw [List.take_succ_cons, List.getElem?_cons_zero, List.getElem?_cons_zero]
      | succ j' =>
        rw [List.take_succ_cons, List.getElem?_cons_succ, List.getElem?_cons_succ]
        exact ih n' j' (by omega)

theorem connect_attempts_spec :
    ∀ (cands : List Candidate) (k i : Nat) (s : ConnState) (c : Candidate),
    1 ≤ k → i + k ≤ 10 → cands[k-1]? = some c → c.connects = true →
    (∀ j, j < k - 1 → ∀ d, cands[j]? = some d → d.connects = false) →
    (connect_attempts cands i s).2 = .connected c ∧
    (connect_attempts cands i s).1.launches = s.launches + k := by
  intro cands
  induction cands with
  | nil =>
    intro k i s c hk1 hk10 hget hconn hfail
    rw [List.getElem?_nil] at hget
    exact Option.noConfusion hget
  | cons a rest ih =>
    intro k i s c hk1 hk10 hget hconn hfail
    cases k with
    | zero => omega
    | succ k' =>
      cases k' with
      | zero =>
        rw [List.getElem?_cons_zero, Option.some.injEq] at hget
        subst hget
        rw [connect_attempts, if_pos hconn]
        exact ⟨rfl, rfl⟩
      | succ k'' =>
        have hafail : a.connects = false := hfail 0 (by omega) a List.getElem?_cons_zero
        have hget' : rest[k'']? = some c := by
          rw [show k'' + 1 + 1 - 1 = k'' + 1 from rfl, List.getElem?_cons_succ] at hget
          exact hget
        have hfail' : ∀ j, j < k'' + 1 - 1 → ∀ d, rest[j]? = some d → d.connects = false := by
          intro j hj d hd
          refine hfail (j + 1) (by omega) d ?_
          rw [List.getElem?_cons_succ]
          exact hd
        obtain ⟨h1, h2⟩ := ih (k'' + 1) (i + 1)
          { launches := s.launches + 1, nextId := s.nextId + 1,
            live := (s.nextId :: s.live).erase s.nextId, browserVar := some s.nextId }
          c (by omega) (by omega) hget' hconn hfail'
        rw [connect_attempts, if_neg (by simp [hafail]), if_neg (by omega : ¬(i + 1 = 10))]
        refine ⟨h1, ?_⟩
        rw [h2]
        show s.launches + 1 + (k'' + 1) = s.launches + (k'' + 1 + 1)
        omega

/-- Claim C7: for every candidate list in which only the k-th candidate
(1-indexed, k ≤ 10) yields a successful page load, the proxy loop makes
exactly k launch attempts and the returned session is bound to the k-th
candidate — iteration stops at the first success. -/
theorem connect_first_success (proxies : List Candidate) (k : Nat) (c : Candidate)
    (hk1 : 1 ≤ k) (hk10 : k ≤ 10)
    (hget : proxies[k-1]? = some c) (hconn : c.connects = true)
    (hfail : ∀ j, j < k - 1 → ∀ d, proxies[j]? = some d → d.connects = false) :
    (connect_loop proxies initConnState).2 = .connected c ∧
    (connect_loop proxies initConnState).1.launches = k := by
  have hget' : (proxies.take 10)[k-1]? = some c := by
    rw [getElem?_take_of_lt proxies 10 (k-1) (by omega)]
    exact hget
  have hfail' : ∀ j, j < k - 1 → ∀ d, (proxies.take 10)[j]? = some d → d.connects = false := by
    intro j hj d hd
    refine hfail j hj d ?_
    rw [← getElem?_take_of_lt proxies 10 j (by omega)]
    exact hd
  obtain ⟨h1, h2⟩ := connect_attempts_spec (proxies.take 10) k 0 initConnState c
    hk1 (by omega) hget' hconn hfail'
  refine ⟨h1, ?_⟩
  rw [connect_loop, h2]
  show 0 + k = k
  omega

/-- Witness for C7 at a concrete input: the 2nd of 3 candidates succeeds. -/
theorem connect_first_success_witness :
    (connect_loop [badCand, goodProxy, badCand] initConnState).2 = .connected goodProxy ∧
    (connect_loop [badCand, goodProxy, badCand] initConnState).1.launches = 2 :=
  connect_first_success [badCand, goodProxy, badCand] 2 goodProxy (by decide) (by decide)
    (by decide) (by decide)
    (by
      intro j hj d hd
      have hj0 : j = 0 := by omega
      subst hj0
      rw [List.getElem?_cons_zero, Option.some.injEq] at hd
      rw [← hd]
      decide)

/-! ## Claim C9: missing credentials -/

/-- Claim C9 counterexample: with no credentials configured, the process
logs the critical message and does not run the scrape, but it exits with
status 0 — not the claimed non-zero exit status. -/
theorem missing_credentials_exit_zero_cex :
    (main_entry none none { proxies := [], page := allOkPage [] [] }).exitCode = 0 ∧
    (main_entry none none { proxies := [], page := allOkPage [] [] }).ranScrape = false ∧
    (main_entry none none { proxies := [], page := allOkPage [] [] }).loggedCritical
        = true := by
  decide

/-- Claim C9 (amended): if the notification credential or destination is
missing (unset or empty), the process aborts before any network activity
— the scrape, and with it every outbound request, never runs — with the
critical message logged; but the process exits with status zero, not the
claimed non-zero status. -/
theorem missing_credentials_aborts (token chatId : Option String) (env : Env)
    (h : (pyTruthy token && pyTruthy chatId) = false) :
    (main_entry token chatId env).loggedCritical = true ∧
    (main_entry token chatId env).ranScrape = false ∧
    (main_entry token chatId env).run = none ∧
    (main_entry token chatId env).exitCode = 0 := by
  rw [main_entry, h]
  exact ⟨rfl, rfl, rfl, rfl⟩

/-- Witness for the amended C9 at a concrete input. -/
theorem missing_credentials_aborts_witness :
    (main_entry none (some "c") { proxies := [], page := allOkPage [] [] }).loggedCritical
        = true ∧
    (main_entry none (some "c") { proxies := [], page := allOkPage [] [] }).ranScrape
        = false ∧
    (main_entry none (some "c") { proxies := [], page := allOkPage [] [] }).run = none ∧
    (main_entry none (some "c") { proxies := [], page := allOkPage [] [] }).exitCode = 0 :=
  missing_credentials_aborts none (some "c") { proxies := [], page := allOkPage [] [] } rfl

/-! ## Claim C10: empty candidate list -/

/-- Claim C10: when the proxy source yields an empty candidate list, the
run sends exactly one error notification, never launches any browser,
and returns normally, so the process (with credentials configured) exits
with status zero — the empty list is not treated as connection
exhaustion. -/
theorem empty_proxy_list_graceful (token chatId : Option String) (env : Env)
    (ht : pyTruthy token = true) (hc : pyTruthy chatId = true)
    (hp : env.proxies = []) :
    (scrape_bhoomi_data env).notifications = [proxy_error_message] ∧
    (scrape_bhoomi_data env).launches = 0 ∧
    (scrape_bhoomi_data env).exit = .normal ∧
    (main_entry token chatId env).exitCode = 0 := by
  have hscrape : scrape_bhoomi_data env =
      { notifications := [proxy_error_message], launches := 0, live := [],
        screenshot := false, exit := .normal } := by
    rw [scrape_bhoomi_data, hp]
    rfl
  refine ⟨by rw [hscrape], by rw [hscrape], by rw [hscrape], ?_⟩
  rw [main_entry, ht, hc]
  rw [show (true && true) = true from rfl, if_pos rfl, hscrape]

/-- Witness for C10 at a concrete input. -/
theorem empty_proxy_list_graceful_witness :
    (scrape_bhoomi_data { proxies := [], page := allOkPage [] [] }).notifications
        = [proxy_error_message] ∧
    (scrape_bhoomi_data { proxies := [], page := allOkPage [] [] }).launches = 0 ∧
    (scrape_bhoomi_data { proxies := [], page := allOkPage [] [] }).exit = .normal ∧
    (main_entry (some "t") (some "c") { proxies := [], page := allOkPage [] [] }).exitCode
        = 0 :=
  empty_proxy_list_graceful (some "t") (some "c")
    { proxies := [], page := allOkPage [] [] } rfl rfl rfl
